import Mathlib

/-!
# Verification of `census-loader` (`web/utils.py`)

A shallow embedding of the classification / zoom / partitioning core of the
single source file `web/utils.py` of this repository, together with theorems
that settle the claims of the specification.

Modelling conventions:
* Python floats are modelled as exact rationals (`ℚ`); Python ints as `ℤ`/`ℕ`.
* The database cursor is modelled as an oracle `db : String → Except String ρ`
  mapping the SQL text actually issued to either an error (a raised exception)
  or the fetched rows/row of result type `ρ`.
* A Python function that may raise an uncaught exception is modelled with
  result type `Except String _`; caught-and-logged exceptions turn into an
  ordinary return value together with the list of printed log lines.
* Python string operations `str.replace` (replace all occurrences,
  left-to-right, non-overlapping) and the `in` containment test are modelled
  by executable char-list functions below.
-/

namespace CensusLoader

/-- Model of Python `pat in s` (substring containment) on char lists. -/
def charsContain (pat : List Char) : List Char → Bool
  | [] => pat.isEmpty
  | c :: cs => pat.isPrefixOf (c :: cs) || charsContain pat cs

/-- Model of Python `sub in s` for strings. -/
def py_contains (s sub : String) : Bool :=
  charsContain sub.data s.data

/-- Fuel-driven worker for `py_replace`: replaces every (non-overlapping,
left-to-right) occurrence of `pat` by `rep`.  Fuel is consumed one unit per
examined position, so fuel `l.length` always suffices for a non-empty `pat`. -/
def py_replace_aux (pat rep : String) : ℕ → List Char → List Char
  | _, [] => []
  | 0, l => l
  | fuel + 1, c :: cs =>
    if pat.data.isPrefixOf (c :: cs) then
      rep.data ++ py_replace_aux pat rep fuel (List.drop pat.data.length (c :: cs))
    else
      c :: py_replace_aux pat rep fuel cs

/-- Model of Python `s.replace(old, new)` (all occurrences, left to right). -/
def py_replace (s old new : String) : String :=
  String.mk (py_replace_aux old new s.data.length s.data)

/-!
## `get_boundary` (web/utils.py lines 203-224)

    def get_boundary(zoom_level):
        if zoom_level < 7:    boundary_name = "ste"; min_display_value = 80
        elif zoom_level < 9:  boundary_name = "sa4"; min_display_value = 40
        elif zoom_level < 11: boundary_name = "sa3"; min_display_value = 20
        elif zoom_level < 14: boundary_name = "sa2"; min_display_value = 15
        elif zoom_level < 17: boundary_name = "sa1"; min_display_value = 10
        else:                 boundary_name = "mb";  min_display_value = 3
        return boundary_name, min_display_value
-/
def get_boundary (zoom_level : ℤ) : String × ℤ :=
  if zoom_level < 7 then ("ste", 80)
  else if zoom_level < 9 then ("sa4", 40)
  else if zoom_level < 11 then ("sa3", 20)
  else if zoom_level < 14 then ("sa2", 15)
  else if zoom_level < 17 then ("sa1", 10)
  else ("mb", 3)

/-!
## `get_tolerance` (web/utils.py lines 228-242)

    tolerance_square_pixels = 7
    metres_per_pixel = 156543.03390625 / math.pow(2.0, float(zoom_level + 1))
    square_metres_per_pixel = math.pow(metres_per_pixel, 2.0)
    tolerance = square_metres_per_pixel * tolerance_square_pixels
-/
def get_tolerance (zoom_level : ℤ) : ℚ :=
  let tolerance_square_pixels : ℚ := 7
  let metres_per_pixel : ℚ := 156543.03390625 / (2 : ℚ) ^ (zoom_level + 1)
  let square_metres_per_pixel : ℚ := metres_per_pixel ^ 2
  square_metres_per_pixel * tolerance_square_pixels

theorem get_tolerance_succ (z : ℤ) : get_tolerance (z + 1) = get_tolerance z / 4 := by
  show (156543.03390625 / (2 : ℚ) ^ (z + 1 + 1)) ^ 2 * 7
      = (156543.03390625 / (2 : ℚ) ^ (z + 1)) ^ 2 * 7 / 4
  rw [zpow_add_one₀ (two_ne_zero : (2 : ℚ) ≠ 0)]
  have h : ((2 : ℚ) ^ (z + 1)) ≠ 0 := zpow_ne_zero _ two_ne_zero
  field_simp
  ring

theorem get_tolerance_pos (z : ℤ) : 0 < get_tolerance z := by
  show 0 < (156543.03390625 / (2 : ℚ) ^ (z + 1)) ^ 2 * 7
  have hc : (0 : ℚ) < 156543.03390625 := by norm_num
  have h2 : (0 : ℚ) < (2 : ℚ) ^ (z + 1) := zpow_pos (by norm_num) _
  positivity

/-- Claim C6: `get_tolerance zoom` equals `7 * (156543.03390625 / 2 ^ (zoom+1)) ^ 2`,
is strictly decreasing in the zoom level, and at zoom 0 equals
`7 * (156543.03390625 / 2) ^ 2`. -/
theorem c6_tolerance :
    (∀ z : ℤ, get_tolerance z = 7 * (156543.03390625 / (2 : ℚ) ^ (z + 1)) ^ 2)
    ∧ (∀ z₁ z₂ : ℤ, z₁ < z₂ → get_tolerance z₂ < get_tolerance z₁)
    ∧ get_tolerance 0 = 7 * ((156543.03390625 : ℚ) / 2) ^ 2 := by
  refine ⟨fun z => by show _ * (7 : ℚ) = _; ring, ?_, ?_⟩
  · have anti : StrictAnti get_tolerance := by
      apply strictAnti_int_of_succ_lt
      intro z
      rw [get_tolerance_succ]
      exact div_lt_self (get_tolerance_pos z) (by norm_num)
    exact fun z₁ z₂ h => anti h
  · show (156543.03390625 / (2 : ℚ) ^ ((0 : ℤ) + 1)) ^ 2 * 7 = _
    norm_num

/-- Witness for C6 at concrete zoom levels. -/
theorem c6_tolerance_witness :
    get_tolerance 1 = 7 * (156543.03390625 / (2 : ℚ) ^ ((1 : ℤ) + 1)) ^ 2
    ∧ get_tolerance 5 < get_tolerance 2 := by
  exact ⟨c6_tolerance.1 1, c6_tolerance.2.1 2 5 (by norm_num)⟩

/-- Claim C5: `get_boundary` is a total function on integer zoom levels returning
exactly the fixed tier table: zoom < 7 ↦ ("ste", 80); 7 ≤ zoom < 9 ↦ ("sa4", 40);
9 ≤ zoom < 11 ↦ ("sa3", 20); 11 ≤ zoom < 14 ↦ ("sa2", 15);
14 ≤ zoom < 17 ↦ ("sa1", 10); and every zoom ≥ 17 ↦ ("mb", 3). -/
theorem c5_boundary (z : ℤ) :
    (z < 7 → get_boundary z = ("ste", 80))
    ∧ (7 ≤ z → z < 9 → get_boundary z = ("sa4", 40))
    ∧ (9 ≤ z → z < 11 → get_boundary z = ("sa3", 20))
    ∧ (11 ≤ z → z < 14 → get_boundary z = ("sa2", 15))
    ∧ (14 ≤ z → z < 17 → get_boundary z = ("sa1", 10))
    ∧ (17 ≤ z → get_boundary z = ("mb", 3)) := by
  unfold get_boundary
  refine ⟨?_, ?_, ?_, ?_, ?_, ?_⟩ <;> intros <;> split_ifs <;> first | rfl | omega

/-- Witness for C5: each tier hit at a concrete zoom level. -/
theorem c5_boundary_witness :
    get_boundary 0 = ("ste", 80) ∧ get_boundary 7 = ("sa4", 40)
    ∧ get_boundary 10 = ("sa3", 20) ∧ get_boundary 12 = ("sa2", 15)
    ∧ get_boundary 16 = ("sa1", 10) ∧ get_boundary 22 = ("mb", 3) := by
  refine ⟨(c5_boundary 0).1 (by norm_num),
          (c5_boundary 7).2.1 (by norm_num) (by norm_num),
          (c5_boundary 10).2.2.1 (by norm_num) (by norm_num),
          (c5_boundary 12).2.2.2.1 (by norm_num) (by norm_num),
          (c5_boundary 16).2.2.2.2.1 (by norm_num) (by norm_num),
          (c5_boundary 22).2.2.2.2.2 (by norm_num)⟩

/-!
## ClassificationEngine (web/utils.py lines 272-421)

The SQL texts are transcribed from the source: the Python code first applies
`.format` (filling `{0}` with `settings["region_id_field"]` and, for K-means,
`{1}` with `float(min_val)`) and then `pg_cur.mogrify` with `AsIs` parameters,
which splices the textual form of each argument into the successive `%s` slots.
Numeric parameters are rendered with `toString`; this abstracts the exact
float/int rendering of Python, but no claim depends on the digit spelling.
-/

/-- SQL text issued by `get_kmeans_bins` (lines 276-309). -/
def get_kmeans_sql (data_table boundary_table stat_field : String) (num_classes : ℕ)
    (min_val : ℚ) (map_type region_id_field : String) : String :=
  if map_type = "values" then
    "WITH sub AS (" ++
    "WITH points AS (" ++
    "SELECT " ++ stat_field ++ " as val, ST_MakePoint(" ++ stat_field ++ ", 0) AS pnt " ++
    "FROM " ++ data_table ++ " AS tab " ++
    "INNER JOIN " ++ boundary_table ++ " AS bdy ON tab." ++ region_id_field ++ " = bdy.id " ++
    "WHERE " ++ stat_field ++ " > 0.0 " ++
    "AND bdy.population > " ++ toString min_val ++
    ") " ++
    "SELECT val, ST_ClusterKMeans(pnt, " ++ toString num_classes ++ ") OVER () AS cluster_id FROM points" ++
    ") " ++
    "SELECT MAX(val) AS val FROM sub GROUP BY cluster_id ORDER BY val"
  else  -- map_type == "percent"
    "WITH sub AS (" ++
    "WITH points AS (" ++
    "SELECT " ++ stat_field ++ " as val, ST_MakePoint(" ++ stat_field ++ ", 0) AS pnt " ++
    "FROM " ++ data_table ++ " AS tab " ++
    "INNER JOIN " ++ boundary_table ++ " AS bdy ON tab." ++ region_id_field ++ " = bdy.id " ++
    "WHERE " ++ stat_field ++ " > 0.0 AND " ++ stat_field ++ " < 100.0 " ++
    "AND bdy.population > " ++ toString min_val ++
    ") " ++
    "SELECT val, ST_ClusterKMeans(pnt, " ++ toString num_classes ++ ") OVER () AS cluster_id FROM points" ++
    ") " ++
    "SELECT MAX(val) AS val FROM sub GROUP BY cluster_id ORDER BY val"

/-- Model of `get_kmeans_bins` (lines 272-325): runs the K-means query; a raised
exception is caught, a `"{0} - {1} Failed: {2}"` line is printed and the empty
list is returned; otherwise the `val` column of each fetched row is collected.
Returns the output list together with the printed log lines. -/
def get_kmeans_bins (data_table boundary_table stat_field : String) (num_classes : ℕ)
    (min_val : ℚ) (map_type : String) (db : String → Except String (List ℚ))
    (region_id_field : String) : List ℚ × List String :=
  match db (get_kmeans_sql data_table boundary_table stat_field num_classes min_val
      map_type region_id_field) with
  | Except.error ex => ([], [data_table ++ " - " ++ stat_field ++ " Failed: " ++ ex])
  | Except.ok rows => (rows, [])

/-- SQL text issued by `get_equal_interval_bins` (lines 332-350). -/
def get_equal_interval_sql (data_table boundary_table stat_field map_type
    region_id_field : String) : String :=
  if map_type = "values" then
    "SELECT MIN(" ++ stat_field ++ ") AS min, MAX(" ++ stat_field ++ ") AS max FROM " ++
    data_table ++ " AS tab " ++
    "INNER JOIN " ++ boundary_table ++ " AS bdy ON tab." ++ region_id_field ++ " = bdy.id " ++
    "WHERE " ++ stat_field ++ " > 0 " ++
    "AND bdy.population > 5"
  else  -- map_type == "percent"
    "SELECT MIN(" ++ stat_field ++ ") AS min, MAX(" ++ stat_field ++ ") AS max FROM " ++
    data_table ++ " AS tab " ++
    "INNER JOIN " ++ boundary_table ++ " AS bdy ON tab." ++ region_id_field ++ " = bdy.id " ++
    "WHERE " ++ stat_field ++ " > 0 AND " ++ stat_field ++ " < 100.0 " ++
    "AND bdy.population > 5"

/-- The `for i in range(0, num_classes): output_list.append(curr_val); curr_val += delta`
loop of `get_equal_interval_bins` (lines 368-370). -/
def interval_bins_loop (curr_val delta : ℚ) : ℕ → List ℚ
  | 0 => []
  | n + 1 => curr_val :: interval_bins_loop (curr_val + delta) delta n

/-- Model of `get_equal_interval_bins` (lines 328-372).  The guarded part (query build,
execute, fetchone) turns a raised exception into a printed line plus empty
list; the arithmetic on the fetched row happens OUTSIDE the `try` block, so a
null `min`/`max` (SQL aggregates over zero rows) raises an uncaught
`TypeError`, and `num_classes = 0` an uncaught `ZeroDivisionError` — both
modelled as `Except.error`.  The db oracle yields the single fetched row as a
pair of optional (nullable) `min`/`max` values. -/
def get_equal_interval_bins (data_table boundary_table stat_field : String)
    (num_classes : ℕ) (map_type : String)
    (db : String → Except String (Option ℚ × Option ℚ))
    (region_id_field : String) : Except String (List ℚ × List String) :=
  match db (get_equal_interval_sql data_table boundary_table stat_field map_type
      region_id_field) with
  | Except.error ex =>
      Except.ok ([], [data_table ++ " - " ++ stat_field ++ " Failed: " ++ ex])
  | Except.ok row =>
      match row.1, row.2 with
      | some min_val, some max_val =>
          if num_classes = 0 then
            Except.error "ZeroDivisionError: float division by zero"
          else
            Except.ok
              (interval_bins_loop min_val ((max_val - min_val) / (num_classes : ℚ))
                num_classes, [])
      | _, _ => Except.error "TypeError: unsupported operand type(s) for -: 'NoneType' and 'NoneType'"

/-- SQL text issued by `get_equal_count_bins` (lines 380-405).  The `values`
branch buckets with `ntile(%s)` filled by `num_classes`; the `percent` branch
hardcodes `ntile(7)`. -/
def get_equal_count_sql (data_table boundary_table stat_field : String)
    (num_classes : ℕ) (map_type region_id_field : String) : String :=
  if map_type = "values" then
    "WITH classes AS (" ++
    "SELECT " ++ stat_field ++ " as val, " ++ ("ntile(" ++ toString num_classes ++ ")") ++
    " OVER (ORDER BY " ++ stat_field ++ ") AS class_id " ++
    "FROM " ++ data_table ++ " AS tab " ++
    "INNER JOIN " ++ boundary_table ++ " AS bdy ON tab." ++ region_id_field ++ " = bdy.id " ++
    "WHERE " ++ stat_field ++ " > 0.0 " ++
    "AND bdy.population > 5.0" ++
    ") " ++
    "SELECT MAX(val) AS val, class_id FROM classes GROUP BY class_id ORDER BY class_id"
  else  -- map_type == "percent"
    "WITH classes AS (" ++
    "SELECT " ++ stat_field ++ " as val, " ++ "ntile(7)" ++
    " OVER (ORDER BY " ++ stat_field ++ ") AS class_id " ++
    "FROM " ++ data_table ++ " AS tab " ++
    "INNER JOIN " ++ boundary_table ++ " AS bdy ON tab." ++ region_id_field ++ " = bdy.id " ++
    "WHERE " ++ stat_field ++ " > 0.0 AND " ++ stat_field ++ " < 100.0 " ++
    "AND bdy.population > 5.0" ++
    ") " ++
    "SELECT MAX(val) AS val, class_id FROM classes GROUP BY class_id ORDER BY class_id"

/-- Model of `get_equal_count_bins` (lines 375-421): same catch-log-return-empty shape
as `get_kmeans_bins`. -/
def get_equal_count_bins (data_table boundary_table stat_field : String)
    (num_classes : ℕ) (map_type : String) (db : String → Except String (List ℚ))
    (region_id_field : String) : List ℚ × List String :=
  match db (get_equal_count_sql data_table boundary_table stat_field num_classes
      map_type region_id_field) with
  | Except.error ex => ([], [data_table ++ " - " ++ stat_field ++ " Failed: " ++ ex])
  | Except.ok rows => (rows, [])

theorem interval_bins_loop_length (n : ℕ) :
    ∀ curr delta : ℚ, (interval_bins_loop curr delta n).length = n := by
  induction n with
  | zero => intro curr delta; rfl
  | succ k ih =>
    intro curr delta
    simp [interval_bins_loop, ih]

theorem interval_bins_loop_getD (n : ℕ) :
    ∀ (curr delta : ℚ) (i : ℕ), i < n →
      (interval_bins_loop curr delta n).getD i 0 = curr + (i : ℚ) * delta := by
  induction n with
  | zero => intro _ _ i hi; omega
  | succ k ih =>
    intro curr delta i hi
    match i with
    | 0 => simp [interval_bins_loop]
    | j + 1 =>
      have hj : j < k := by omega
      have := ih (curr + delta) delta j hj
      simp only [interval_bins_loop, List.getD_cons_succ]
      rw [this]
      push_cast
      ring

/-- Claim C1: A successful equal-interval MIN/MAX query with non-null results
yields exactly `num_classes` breakpoints, the `i`-th (0-indexed) being
`MIN + i * (MAX - MIN) / num_classes` — interval starts, evenly spaced, and
ascending whenever `MIN < MAX`; in particular `num_classes = 4`, `MIN = 0`,
`MAX = 100` yields `[0, 25, 50, 75]`. -/
theorem c1_equal_interval_bins :
    (∀ (dt bt sf mt rif : String) (db : String → Except String (Option ℚ × Option ℚ))
        (minv maxv : ℚ) (n : ℕ), 1 ≤ n →
        db (get_equal_interval_sql dt bt sf mt rif) = Except.ok (some minv, some maxv) →
        ∃ l : List ℚ,
          get_equal_interval_bins dt bt sf n mt db rif = Except.ok (l, [])
          ∧ l.length = n
          ∧ (∀ i : ℕ, i < n → l.getD i 0 = minv + (i : ℚ) * ((maxv - minv) / (n : ℚ)))
          ∧ (minv < maxv → ∀ i : ℕ, i + 1 < n → l.getD i 0 < l.getD (i + 1) 0))
    ∧ (∀ (dt bt sf mt rif : String) (db : String → Except String (Option ℚ × Option ℚ)),
        db (get_equal_interval_sql dt bt sf mt rif) = Except.ok (some 0, some 100) →
        get_equal_interval_bins dt bt sf 4 mt db rif = Except.ok ([0, 25, 50, 75], [])) := by
  constructor
  · intro dt bt sf mt rif db minv maxv n hn hdb
    have hn0 : n ≠ 0 := by omega
    refine ⟨interval_bins_loop minv ((maxv - minv) / (n : ℚ)) n, ?_, ?_, ?_, ?_⟩
    · unfold get_equal_interval_bins
      rw [hdb]
      simp [hn0]
    · exact interval_bins_loop_length n _ _
    · intro i hi
      exact interval_bins_loop_getD n _ _ i hi
    · intro hlt i hi
      have hd : 0 < (maxv - minv) / (n : ℚ) := by
        apply div_pos (sub_pos.mpr hlt)
        exact_mod_cast Nat.pos_of_ne_zero hn0
      rw [interval_bins_loop_getD n _ _ i (by omega),
          interval_bins_loop_getD n _ _ (i + 1) hi]
      have hcast : (i : ℚ) < ((i + 1 : ℕ) : ℚ) := by exact_mod_cast Nat.lt_succ_self i
      exact add_lt_add_left (mul_lt_mul_of_pos_right hcast hd) minv
  · intro dt bt sf mt rif db hdb
    unfold get_equal_interval_bins
    rw [hdb]
    norm_num [interval_bins_loop]

/-- Witness for C1: the concrete `[0, 25, 50, 75]` run. -/
theorem c1_equal_interval_bins_witness :
    get_equal_interval_bins "tab" "bdy" "stat" 4 "values"
      (fun _ => Except.ok (some 0, some 100)) "rid" = Except.ok ([0, 25, 50, 75], []) :=
  c1_equal_interval_bins.2 "tab" "bdy" "stat" "values" "rid" _ rfl

/-- Claim C2: The `percent` branch of the equal-count query hardcodes `ntile(7)`
and is independent of `num_classes` (so `num_classes` has no effect on the
query issued, hence none on the output of the function for a fixed database),
while the `values` branch buckets with `ntile(num_classes)`. -/
theorem c2_equal_count_ntile (dt bt sf rif : String) (n m : ℕ) :
    get_equal_count_sql dt bt sf n "percent" rif = get_equal_count_sql dt bt sf m "percent" rif
    ∧ (∃ a b : String, get_equal_count_sql dt bt sf n "percent" rif = a ++ "ntile(7)" ++ b)
    ∧ (∃ a b : String, get_equal_count_sql dt bt sf n "values" rif
        = a ++ ("ntile(" ++ toString n ++ ")") ++ b)
    ∧ (∀ db : String → Except String (List ℚ),
        get_equal_count_bins dt bt sf n "percent" db rif
          = get_equal_count_bins dt bt sf m "percent" db rif) := by
  have hsql : get_equal_count_sql dt bt sf n "percent" rif
      = get_equal_count_sql dt bt sf m "percent" rif := by
    unfold get_equal_count_sql
    rw [if_neg (by decide), if_neg (by decide)]
  refine ⟨hsql, ?_, ?_, ?_⟩
  · refine ⟨"WITH classes AS (" ++ "SELECT " ++ sf ++ " as val, ",
      " OVER (ORDER BY " ++ sf ++ ") AS class_id " ++
      "FROM " ++ dt ++ " AS tab " ++
      "INNER JOIN " ++ bt ++ " AS bdy ON tab." ++ rif ++ " = bdy.id " ++
      "WHERE " ++ sf ++ " > 0.0 AND " ++ sf ++ " < 100.0 " ++
      "AND bdy.population > 5.0" ++
      ") " ++
      "SELECT MAX(val) AS val, class_id FROM classes GROUP BY class_id ORDER BY class_id", ?_⟩
    unfold get_equal_count_sql
    rw [if_neg (by decide)]
    simp only [String.append_assoc]
  · refine ⟨"WITH classes AS (" ++ "SELECT " ++ sf ++ " as val, ",
      " OVER (ORDER BY " ++ sf ++ ") AS class_id " ++
      "FROM " ++ dt ++ " AS tab " ++
      "INNER JOIN " ++ bt ++ " AS bdy ON tab." ++ rif ++ " = bdy.id " ++
      "WHERE " ++ sf ++ " > 0.0 " ++
      "AND bdy.population > 5.0" ++
      ") " ++
      "SELECT MAX(val) AS val, class_id FROM classes GROUP BY class_id ORDER BY class_id", ?_⟩
    unfold get_equal_count_sql
    rw [if_pos rfl]
    simp only [String.append_assoc]
  · intro db
    unfold get_equal_count_bins
    rw [hsql]

/-- Claim C3: K-means: a raised query error is caught, logged with the
`data_table`/`stat_field` identifiers, and replaced by an empty list; a
successful query returning no rows likewise yields an empty list; the same
catch-log-return-empty shape holds for `get_equal_count_bins`. -/
theorem c3_catch_log_return_empty (dt bt sf mt rif : String) (n : ℕ) (minv : ℚ)
    (db : String → Except String (List ℚ)) (ex : String) :
    (db (get_kmeans_sql dt bt sf n minv mt rif) = Except.error ex →
      get_kmeans_bins dt bt sf n minv mt db rif
        = ([], [dt ++ " - " ++ sf ++ " Failed: " ++ ex]))
    ∧ (db (get_kmeans_sql dt bt sf n minv mt rif) = Except.ok [] →
      get_kmeans_bins dt bt sf n minv mt db rif = ([], []))
    ∧ (db (get_equal_count_sql dt bt sf n mt rif) = Except.error ex →
      get_equal_count_bins dt bt sf n mt db rif
        = ([], [dt ++ " - " ++ sf ++ " Failed: " ++ ex])) := by
  refine ⟨fun h => ?_, fun h => ?_, fun h => ?_⟩
  · unfold get_kmeans_bins
    rw [h]
  · unfold get_kmeans_bins
    rw [h]
  · unfold get_equal_count_bins
    rw [h]

/-- Witness for C3 with a concrete failing and a concrete empty database. -/
theorem c3_catch_log_return_empty_witness :
    get_kmeans_bins "tab" "bdy" "stat" 5 3 "values" (fun _ => Except.error "boom") "rid"
      = ([], ["tab" ++ " - " ++ "stat" ++ " Failed: " ++ "boom"])
    ∧ get_kmeans_bins "tab" "bdy" "stat" 5 3 "values" (fun _ => Except.ok []) "rid" = ([], [])
    ∧ get_equal_count_bins "tab" "bdy" "stat" 5 "percent" (fun _ => Except.error "boom") "rid"
      = ([], ["tab" ++ " - " ++ "stat" ++ " Failed: " ++ "boom"]) :=
  ⟨(c3_catch_log_return_empty "tab" "bdy" "stat" "values" "rid" 5 3
      (fun _ => Except.error "boom") "boom").1 rfl,
   (c3_catch_log_return_empty "tab" "bdy" "stat" "values" "rid" 5 3
      (fun _ => Except.ok []) "boom").2.1 rfl,
   (c3_catch_log_return_empty "tab" "bdy" "stat" "percent" "rid" 5 3
      (fun _ => Except.error "boom") "boom").2.2 rfl⟩

/-- Claim C4: When the equal-interval MIN/MAX query succeeds but matches no rows
(null `min` and `max`), the arithmetic outside the guarded block raises an
uncaught fault: `get_equal_interval_bins` produces an error, never a result
(in particular not an empty list). -/
theorem c4_equal_interval_null_fault (dt bt sf mt rif : String)
    (db : String → Except String (Option ℚ × Option ℚ)) (n : ℕ)
    (hdb : db (get_equal_interval_sql dt bt sf mt rif) = Except.ok (none, none)) :
    (∃ e, get_equal_interval_bins dt bt sf n mt db rif = Except.error e)
    ∧ ∀ res, get_equal_interval_bins dt bt sf n mt db rif ≠ Except.ok res := by
  unfold get_equal_interval_bins
  rw [hdb]
  exact ⟨⟨_, rfl⟩, fun res h => by cases h⟩

/-- Witness for C4: a concrete empty-table database. -/
theorem c4_equal_interval_null_fault_witness :
    (∃ e, get_equal_interval_bins "tab" "bdy" "stat" 7 "values"
        (fun _ => Except.ok (none, none)) "rid" = Except.error e)
    ∧ ∀ res, get_equal_interval_bins "tab" "bdy" "stat" 7 "values"
        (fun _ => Except.ok (none, none)) "rid" ≠ Except.ok res :=
  c4_equal_interval_null_fault "tab" "bdy" "stat" "values" "rid" _ 7 rfl

/-!
## `get_settings` (web/utils.py lines 88-199)

The parsed command-line arguments and the process environment are explicit
parameters (`args`, `env`); `script_dir` stands for
`os.path.dirname(os.path.realpath(__file__))`.  The falsy `or` of Python on
strings (`None` and `""` both fall through to the default) is modelled by
`py_or_str`; the port value is modelled by its textual rendering, which is
all the connect string uses.
-/

/-- The parsed command-line arguments consumed by `get_settings`. -/
structure Args where
  max_processes : ℤ
  pghost : Option String
  pgport : Option ℤ
  pgdb : Option String
  pguser : Option String
  pgpassword : Option String
  census_year : String
  data_schema : String
  boundary_schema : String
  web_schema : String
  census_data_path : Option String
  census_bdys_path : Option String

/-- One record of `settings["census_metadata_dicts"]`. -/
structure MetadataDict where
  table : String
  first_row : String

/-- One record of `settings["bdy_table_dicts"]`. -/
structure BdyTable where
  boundary : String
  id_field : String
  name_field : String
  area_field : String

/-- The settings dictionary built by `get_settings`. -/
structure Settings where
  max_concurrent_processes : ℤ
  census_year : String
  states : List String
  data_schema : String
  boundary_schema : String
  web_schema : String
  data_directory : String
  boundaries_local_directory : String
  pg_host : String
  pg_port : String
  pg_db : String
  pg_user : String
  pg_password : String
  pg_connect_string : String
  sql_dir : String
  metadata_file_prefix : String
  metadata_file_type : String
  census_metadata_dicts : List MetadataDict
  data_file_prefix : String
  data_file_type : String
  table_name_part : ℕ
  bdy_name_part : ℕ
  region_id_field : String
  bdy_table_dicts : List BdyTable

/-- Python `x or default` for an optional string argument: `None` and the
empty string are falsy and fall through to the default. -/
def py_or_str (x : Option String) (default : String) : String :=
  match x with
  | some s => if s = "" then default else s
  | none => default

/-- Model of `args.pgport or os.getenv("PGPORT", 5432)`, rendered as the text used in
the connect string (`0` is falsy in Python). -/
def pg_port_setting (pgport : Option ℤ) (env : String → Option String) : String :=
  match pgport with
  | some p => if p = 0 then (env "PGPORT").getD "5432" else toString p
  | none => (env "PGPORT").getD "5432"

/-- Model of `get_settings` (lines 88-199): builds the settings record; census years
other than `"2016"` and `"2011"` return `None`. -/
def get_settings (args : Args) (env : String → Option String) (script_dir : String) :
    Option Settings :=
  let census_data_path := args.census_data_path.getD ""
  let census_bdys_path := args.census_bdys_path.getD ""
  let pg_host := py_or_str args.pghost ((env "PGHOST").getD "localhost")
  let pg_port := pg_port_setting args.pgport env
  let pg_db := py_or_str args.pgdb ((env "POSTGRES_USER").getD "geo")
  let pg_user := py_or_str args.pguser ((env "POSTGRES_USER").getD "postgres")
  let pg_password := py_or_str args.pgpassword ((env "POSTGRES_PASSWORD").getD "password")
  let pg_connect_string :=
    "dbname='" ++ pg_db ++ "' host='" ++ pg_host ++ "' port='" ++ pg_port ++
    "' user='" ++ pg_user ++ "' password='" ++ pg_password ++ "'"
  if args.census_year = "2016" then
    some
      { max_concurrent_processes := args.max_processes
        census_year := args.census_year
        states := ["ACT", "NSW", "NT", "OT", "QLD", "SA", "TAS", "VIC", "WA"]
        data_schema := args.data_schema
        boundary_schema := args.boundary_schema
        web_schema := args.web_schema
        data_directory := py_replace census_data_path "\\" "/"
        boundaries_local_directory := py_replace census_bdys_path "\\" "/"
        pg_host := pg_host
        pg_port := pg_port
        pg_db := pg_db
        pg_user := pg_user
        pg_password := pg_password
        pg_connect_string := pg_connect_string
        sql_dir := script_dir ++ "/postgres-scripts"
        metadata_file_prefix := "Sample_Metadata_"
        metadata_file_type := ".xls"
        census_metadata_dicts :=
          [⟨"metadata_tables", "table number"⟩, ⟨"metadata_stats", "sequential"⟩]
        data_file_prefix := "2016_Sample_"
        data_file_type := ".csv"
        table_name_part := 2
        bdy_name_part := 3
        region_id_field := "aus_code_2016"
        bdy_table_dicts :=
          [⟨"add", "add_code16", "add_name16", "areasqkm16"⟩,
           ⟨"ced", "ced_code16", "ced_name16", "areasqkm16"⟩,
           ⟨"gccsa", "gcc_code16", "gcc_name16", "areasqkm16"⟩,
           ⟨"iare", "iar_code16", "iar_name16", "areasqkm16"⟩,
           ⟨"iloc", "ilo_code16", "ilo_name16", "areasqkm16"⟩,
           ⟨"ireg", "ire_code16", "ire_name16", "areasqkm16"⟩,
           ⟨"lga", "lga_code16", "lga_name16", "areasqkm16"⟩,
           ⟨"mb", "mb_code16", "'MB ' || mb_code16", "areasqkm16"⟩,
           ⟨"nrmr", "nrm_code16", "nrm_name16", "areasqkm16"⟩,
           ⟨"poa", "poa_code16", "'Postcode ' || poa_name16", "areasqkm16"⟩,
           ⟨"sa1", "sa1_main16", "'SA1 ' || sa1_main16", "areasqkm16"⟩,
           ⟨"sa2", "sa2_main16", "sa2_name16", "areasqkm16"⟩,
           ⟨"sa3", "sa3_code16", "sa3_name16", "areasqkm16"⟩,
           ⟨"sa4", "sa4_code16", "sa4_name16", "areasqkm16"⟩,
           ⟨"sed", "sed_code16", "sed_name16", "areasqkm16"⟩,
           ⟨"ssc", "ssc_code16", "ssc_name16", "areasqkm16"⟩,
           ⟨"ste", "state_code16", "state_name16", "areasqkm16"⟩,
           ⟨"tr", "tr_code16", "tr_name16", "areasqkm16"⟩] }
  else if args.census_year = "2011" then
    some
      { max_concurrent_processes := args.max_processes
        census_year := args.census_year
        states := ["ACT", "NSW", "NT", "OT", "QLD", "SA", "TAS", "VIC", "WA"]
        data_schema := args.data_schema
        boundary_schema := args.boundary_schema
        web_schema := args.web_schema
        data_directory := py_replace census_data_path "\\" "/"
        boundaries_local_directory := py_replace census_bdys_path "\\" "/"
        pg_host := pg_host
        pg_port := pg_port
        pg_db := pg_db
        pg_user := pg_user
        pg_password := pg_password
        pg_connect_string := pg_connect_string
        sql_dir := script_dir ++ "/postgres-scripts"
        metadata_file_prefix := "Metadata_"
        metadata_file_type := ".xlsx"
        census_metadata_dicts :=
          [⟨"metadata_tables", "table number"⟩, ⟨"metadata_stats", "sequential"⟩]
        data_file_prefix := "2011Census_"
        data_file_type := ".csv"
        table_name_part := 1
        bdy_name_part := 3
        region_id_field := "region_id"
        bdy_table_dicts :=
          [⟨"ced", "ced_code", "ced_name", "area_sqkm"⟩,
           ⟨"gccsa", "gccsa_code", "gccsa_name", "area_sqkm"⟩,
           ⟨"iare", "iare_code", "iare_name", "area_sqkm"⟩,
           ⟨"iloc", "iloc_code", "iloc_name", "area_sqkm"⟩,
           ⟨"ireg", "ireg_code", "ireg_name", "area_sqkm"⟩,
           ⟨"lga", "lga_code", "lga_name", "area_sqkm"⟩,
           ⟨"mb", "mb_code11", "'MB ' || mb_code11", "albers_sqm / 1000000.0"⟩,
           ⟨"poa", "poa_code", "'POA ' || poa_name", "area_sqkm"⟩,
           ⟨"ra", "ra_code", "ra_name", "area_sqkm"⟩,
           ⟨"sa1", "sa1_7digit", "'SA1 ' || sa1_7digit", "area_sqkm"⟩,
           ⟨"sa2", "sa2_main", "sa2_name", "area_sqkm"⟩,
           ⟨"sa3", "sa3_code", "sa3_name", "area_sqkm"⟩,
           ⟨"sa4", "sa4_code", "sa4_name", "area_sqkm"⟩,
           ⟨"sed", "sed_code", "sed_name", "area_sqkm"⟩,
           ⟨"sla", "sla_main", "sla_name", "area_sqkm"⟩,
           ⟨"sos", "sos_code", "sos_name", "area_sqkm"⟩,
           ⟨"sosr", "sosr_code", "sosr_name", "area_sqkm"⟩,
           ⟨"ssc", "ssc_code", "ssc_name", "area_sqkm"⟩,
           ⟨"ste", "state_code", "state_name", "area_sqkm"⟩,
           ⟨"sua", "sua_code", "sua_name", "area_sqkm"⟩,
           ⟨"ucl", "ucl_code", "ucl_name", "area_sqkm"⟩] }
  else
    none

/-- Claim C10: `get_settings` returns `none` whenever the census year is neither
`"2016"` nor `"2011"`; for those two years it returns a settings record
carrying the region-id field of that year, the schema names from the arguments, and
a non-empty `bdy_table_dicts` list. -/
theorem c10_get_settings (args : Args) (env : String → Option String) (sd : String) :
    (args.census_year ≠ "2016" → args.census_year ≠ "2011" →
      get_settings args env sd = none)
    ∧ (args.census_year = "2016" →
      ∃ s, get_settings args env sd = some s
        ∧ s.region_id_field = "aus_code_2016"
        ∧ s.data_schema = args.data_schema
        ∧ s.boundary_schema = args.boundary_schema
        ∧ s.web_schema = args.web_schema
        ∧ s.bdy_table_dicts ≠ [])
    ∧ (args.census_year = "2011" →
      ∃ s, get_settings args env sd = some s
        ∧ s.region_id_field = "region_id"
        ∧ s.data_schema = args.data_schema
        ∧ s.boundary_schema = args.boundary_schema
        ∧ s.web_schema = args.web_schema
        ∧ s.bdy_table_dicts ≠ []) := by
  refine ⟨fun h16 h11 => ?_, fun h => ?_, fun h => ?_⟩
  · simp only [get_settings, if_neg h16, if_neg h11]
  · simp only [get_settings, h, if_pos rfl]
    exact ⟨_, rfl, rfl, rfl, rfl, rfl, by simp⟩
  · have h16 : args.census_year ≠ "2016" := by rw [h]; decide
    simp only [get_settings, if_neg h16, h, if_pos rfl]
    exact ⟨_, rfl, rfl, rfl, rfl, rfl, by simp⟩

/-- Witness for C10 at concrete argument records. -/
theorem c10_get_settings_witness :
    (get_settings ⟨3, none, none, none, none, none, "1996", "d", "b", "w", none, none⟩
        (fun _ => none) "/sd" = none)
    ∧ (∃ s, get_settings ⟨3, none, none, none, none, none, "2016", "d", "b", "w", none, none⟩
        (fun _ => none) "/sd" = some s
        ∧ s.region_id_field = "aus_code_2016"
        ∧ s.data_schema = "d"
        ∧ s.boundary_schema = "b"
        ∧ s.web_schema = "w"
        ∧ s.bdy_table_dicts ≠ []) :=
  ⟨(c10_get_settings ⟨3, none, none, none, none, none, "1996", "d", "b", "w", none, none⟩
      (fun _ => none) "/sd").1 (by decide) (by decide),
   (c10_get_settings ⟨3, none, none, none, none, none, "2016", "d", "b", "w", none, none⟩
      (fun _ => none) "/sd").2.1 rfl⟩

/-!
## `get_decimal_places` (web/utils.py lines 246-269)

    metres2degrees = (2.0 * math.pi * 6378137.0) / 360.0
    metres_per_pixel = 156543.03390625 / math.pow(2.0, float(zoom_level))
    degrees_per_pixel = metres_per_pixel / metres2degrees
    scale_string = "{:10.9f}".format(degrees_per_pixel).split(".")[1]
    places = 1
    trigger = "0"
    for c in scale_string:
        if c == trigger: places += 1
        else: trigger = <a long sentinel string, so no later char matches>
    return places

`math.pi` is the IEEE-754 double nearest pi, whose exact value is the
rational `884279719003555 / 2^48` used below.  The nine fractional digits
produced by `"{:10.9f}"` are modelled by rounding `x * 10^9` to the nearest
integer (ties cannot occur here) and zero-padding its last nine digits; the
source sentinel string is 22 characters long, the one below 21 — all that
matters is that it differs from every single-character string.
-/

/-- The exact value of Python `math.pi` (the binary64 double nearest pi). -/
def pi_float : ℚ := 884279719003555 / 281474976710656

/-- The source expression `(2.0 * math.pi * 6378137.0) / 360.0` (line 249). -/
def metres2degrees : ℚ := 2 * pi_float * 6378137 / 360

/-- The value `degrees_per_pixel` at a zoom level (lines 252-255). -/
def degrees_per_pixel (zoom_level : ℕ) : ℚ :=
  (156543.03390625 : ℚ) / 2 ^ zoom_level / metres2degrees

/-- Model of `"{:10.9f}".format(degrees_per_pixel).split(".")[1]` (line 257): the nine
fractional digits, zero-padded, of the formatted value. -/
def scale_string (zoom_level : ℕ) : String :=
  (toString ((10 : ℤ) ^ 9 + round (degrees_per_pixel zoom_level * 10 ^ 9) % 10 ^ 9)).drop 1

/-- The counting loop of lines 258-267. -/
def count_zero_places : List Char → ℕ → String → ℕ
  | [], places, _ => places
  | c :: cs, places, trigger =>
    if String.singleton c = trigger then count_zero_places cs (places + 1) trigger
    else count_zero_places cs places "dont do anything else"

/-- Model of `get_decimal_places` (lines 246-269). -/
def get_decimal_places (zoom_level : ℕ) : ℕ :=
  count_zero_places (scale_string zoom_level).data 1 "0"

/-- The notion used by the claim itself: the number of leading zero digits after the
decimal point of the formatted precision value. -/
def leading_zero_digits (s : String) : ℕ :=
  (s.data.takeWhile (fun c => c == '0')).length

theorem singleton_ne_sentinel (c : Char) :
    String.singleton c ≠ "dont do anything else" := by
  intro h
  have h1 := congrArg String.data h
  have h2 := congrArg (fun l => l.length) h1
  simp [String.singleton] at h2

theorem count_zero_places_sentinel (l : List Char) :
    ∀ p : ℕ, count_zero_places l p "dont do anything else" = p := by
  induction l with
  | nil => intro p; rfl
  | cons c cs ih =>
    intro p
    rw [count_zero_places, if_neg (singleton_ne_sentinel c)]
    exact ih p

theorem count_zero_places_eq (l : List Char) :
    ∀ p : ℕ, count_zero_places l p "0" = p + (l.takeWhile (fun c => c == '0')).length := by
  induction l with
  | nil => intro p; rfl
  | cons c cs ih =>
    intro p
    by_cases hc : c = '0'
    · subst hc
      rw [count_zero_places, if_pos (by rfl), ih]
      simp [List.takeWhile]
      omega
    · have hne : String.singleton c ≠ "0" := by
        intro h
        exact hc (by
          have h1 := congrArg String.data h
          simpa [String.singleton] using h1)
      rw [count_zero_places, if_neg hne, count_zero_places_sentinel]
      have : (c == '0') = false := by simpa using hc
      simp [List.takeWhile, this]

theorem get_decimal_places_eq (z : ℕ) :
    get_decimal_places z = 1 + leading_zero_digits (scale_string z) := by
  unfold get_decimal_places leading_zero_digits
  rw [count_zero_places_eq]

theorem round_dpp_0 : round (degrees_per_pixel 0 * 10 ^ 9) = 1406250000 := by
  unfold degrees_per_pixel metres2degrees pi_float
  rw [round_eq]
  norm_num

theorem gdp_val_0 : get_decimal_places 0 = 1 := by
  unfold get_decimal_places scale_string
  rw [round_dpp_0]
  decide

theorem round_dpp_1 : round (degrees_per_pixel 1 * 10 ^ 9) = 703125000 := by
  unfold degrees_per_pixel metres2degrees pi_float
  rw [round_eq]
  norm_num

theorem gdp_val_1 : get_decimal_places 1 = 1 := by
  unfold get_decimal_places scale_string
  rw [round_dpp_1]
  decide

theorem round_dpp_2 : round (degrees_per_pixel 2 * 10 ^ 9) = 351562500 := by
  unfold degrees_per_pixel metres2degrees pi_float
  rw [round_eq]
  norm_num

theorem gdp_val_2 : get_decimal_places 2 = 1 := by
  unfold get_decimal_places scale_string
  rw [round_dpp_2]
  decide

theorem round_dpp_3 : round (degrees_per_pixel 3 * 10 ^ 9) = 175781250 := by
  unfold degrees_per_pixel metres2degrees pi_float
  rw [round_eq]
  norm_num

theorem gdp_val_3 : get_decimal_places 3 = 1 := by
  unfold get_decimal_places scale_string
  rw [round_dpp_3]
  decide

theorem round_dpp_4 : round (degrees_per_pixel 4 * 10 ^ 9) = 87890625 := by
  unfold degrees_per_pixel metres2degrees pi_float
  rw [round_eq]
  norm_num

theorem gdp_val_4 : get_decimal_places 4 = 2 := by
  unfold get_decimal_places scale_string
  rw [round_dpp_4]
  decide

theorem round_dpp_5 : round (degrees_per_pixel 5 * 10 ^ 9) = 43945312 := by
  unfold degrees_per_pixel metres2degrees pi_float
  rw [round_eq]
  norm_num

theorem gdp_val_5 : get_decimal_places 5 = 2 := by
  unfold get_decimal_places scale_string
  rw [round_dpp_5]
  decide

theorem round_dpp_6 : round (degrees_per_pixel 6 * 10 ^ 9) = 21972656 := by
  unfold degrees_per_pixel metres2degrees pi_float
  rw [round_eq]
  norm_num

theorem gdp_val_6 : get_decimal_places 6 = 2 := by
  unfold get_decimal_places scale_string
  rw [round_dpp_6]
  decide

theorem round_dpp_7 : round (degrees_per_pixel 7 * 10 ^ 9) = 10986328 := by
  unfold degrees_per_pixel metres2degrees pi_float
  rw [round_eq]
  norm_num

theorem gdp_val_7 : get_decimal_places 7 = 2 := by
  unfold get_decimal_places scale_string
  rw [round_dpp_7]
  decide

theorem round_dpp_8 : round (degrees_per_pixel 8 * 10 ^ 9) = 5493164 := by
  unfold degrees_per_pixel metres2degrees pi_float
  rw [round_eq]
  norm_num

theorem gdp_val_8 : get_decimal_places 8 = 3 := by
  unfold get_decimal_places scale_string
  rw [round_dpp_8]
  decide

theorem round_dpp_9 : round (degrees_per_pixel 9 * 10 ^ 9) = 2746582 := by
  unfold degrees_per_pixel metres2degrees pi_float
  rw [round_eq]
  norm_num

theorem gdp_val_9 : get_decimal_places 9 = 3 := by
  unfold get_decimal_places scale_string
  rw [round_dpp_9]
  decide

theorem round_dpp_10 : round (degrees_per_pixel 10 * 10 ^ 9) = 1373291 := by
  unfold degrees_per_pixel metres2degrees pi_float
  rw [round_eq]
  norm_num

theorem gdp_val_10 : get_decimal_places 10 = 3 := by
  unfold get_decimal_places scale_string
  rw [round_dpp_10]
  decide

theorem round_dpp_11 : round (degrees_per_pixel 11 * 10 ^ 9) = 686646 := by
  unfold degrees_per_pixel metres2degrees pi_float
  rw [round_eq]
  norm_num

theorem gdp_val_11 : get_decimal_places 11 = 4 := by
  unfold get_decimal_places scale_string
  rw [round_dpp_11]
  decide

theorem round_dpp_12 : round (degrees_per_pixel 12 * 10 ^ 9) = 343323 := by
  unfold degrees_per_pixel metres2degrees pi_float
  rw [round_eq]
  norm_num

theorem gdp_val_12 : get_decimal_places 12 = 4 := by
  unfold get_decimal_places scale_string
  rw [round_dpp_12]
  decide

theorem round_dpp_13 : round (degrees_per_pixel 13 * 10 ^ 9) = 171661 := by
  unfold degrees_per_pixel metres2degrees pi_float
  rw [round_eq]
  norm_num

theorem gdp_val_13 : get_decimal_places 13 = 4 := by
  unfold get_decimal_places scale_string
  rw [round_dpp_13]
  decide

theorem round_dpp_14 : round (degrees_per_pixel 14 * 10 ^ 9) = 85831 := by
  unfold degrees_per_pixel metres2degrees pi_float
  rw [round_eq]
  norm_num

theorem gdp_val_14 : get_decimal_places 14 = 5 := by
  unfold get_decimal_places scale_string
  rw [round_dpp_14]
  decide

theorem round_dpp_15 : round (degrees_per_pixel 15 * 10 ^ 9) = 42915 := by
  unfold degrees_per_pixel metres2degrees pi_float
  rw [round_eq]
  norm_num

theorem gdp_val_15 : get_decimal_places 15 = 5 := by
  unfold get_decimal_places scale_string
  rw [round_dpp_15]
  decide

theorem round_dpp_16 : round (degrees_per_pixel 16 * 10 ^ 9) = 21458 := by
  unfold degrees_per_pixel metres2degrees pi_float
  rw [round_eq]
  norm_num

theorem gdp_val_16 : get_decimal_places 16 = 5 := by
  unfold get_decimal_places scale_string
  rw [round_dpp_16]
  decide

theorem round_dpp_17 : round (degrees_per_pixel 17 * 10 ^ 9) = 10729 := by
  unfold degrees_per_pixel metres2degrees pi_float
  rw [round_eq]
  norm_num

theorem gdp_val_17 : get_decimal_places 17 = 5 := by
  unfold get_decimal_places scale_string
  rw [round_dpp_17]
  decide

theorem round_dpp_18 : round (degrees_per_pixel 18 * 10 ^ 9) = 5364 := by
  unfold degrees_per_pixel metres2degrees pi_float
  rw [round_eq]
  norm_num

theorem gdp_val_18 : get_decimal_places 18 = 6 := by
  unfold get_decimal_places scale_string
  rw [round_dpp_18]
  decide

theorem round_dpp_19 : round (degrees_per_pixel 19 * 10 ^ 9) = 2682 := by
  unfold degrees_per_pixel metres2degrees pi_float
  rw [round_eq]
  norm_num

theorem gdp_val_19 : get_decimal_places 19 = 6 := by
  unfold get_decimal_places scale_string
  rw [round_dpp_19]
  decide

theorem round_dpp_20 : round (degrees_per_pixel 20 * 10 ^ 9) = 1341 := by
  unfold degrees_per_pixel metres2degrees pi_float
  rw [round_eq]
  norm_num

theorem gdp_val_20 : get_decimal_places 20 = 6 := by
  unfold get_decimal_places scale_string
  rw [round_dpp_20]
  decide

theorem gdp_chain : ∀ z : ℕ, z < 20 → get_decimal_places z ≤ get_decimal_places (z + 1) := by
  intro z hz
  interval_cases z <;>
    simp [gdp_val_0, gdp_val_1, gdp_val_2, gdp_val_3, gdp_val_4, gdp_val_5, gdp_val_6,
      gdp_val_7, gdp_val_8, gdp_val_9, gdp_val_10, gdp_val_11, gdp_val_12, gdp_val_13,
      gdp_val_14, gdp_val_15, gdp_val_16, gdp_val_17, gdp_val_18, gdp_val_19, gdp_val_20]

/-- Claim C7: `get_decimal_places` is non-decreasing on zoom levels 0..20 and
returns at least 1 there; its value is one plus the number of leading zero
digits after the decimal point of the formatted degrees-per-pixel precision
value at that zoom. -/
theorem c7_decimal_places :
    (∀ a b : ℕ, a ≤ b → b ≤ 20 → get_decimal_places a ≤ get_decimal_places b)
    ∧ (∀ z : ℕ, z ≤ 20 → 1 ≤ get_decimal_places z)
    ∧ (∀ z : ℕ, get_decimal_places z = 1 + leading_zero_digits (scale_string z)) := by
  refine ⟨?_, fun z _ => by rw [get_decimal_places_eq]; omega, get_decimal_places_eq⟩
  intro a b hab
  exact Nat.le_induction (fun _ => le_refl _)
    (fun n _ ih h20 => le_trans (ih (by omega)) (gdp_chain n (by omega))) b hab

/-- Witness for C7 at concrete zoom levels. -/
theorem c7_decimal_places_witness :
    get_decimal_places 3 ≤ get_decimal_places 11
    ∧ 1 ≤ get_decimal_places 0
    ∧ get_decimal_places 5 = 1 + leading_zero_digits (scale_string 5) :=
  ⟨c7_decimal_places.1 3 11 (by norm_num) (by norm_num),
   c7_decimal_places.2.1 0 (by norm_num),
   c7_decimal_places.2.2 5⟩

/-!
## `split_sql_into_list` (web/utils.py lines 580-637)

    min_pkey = int(result[0]); max_pkey = int(result[1]); diff = max_pkey - min_pkey
    rows_per_request = int(math.floor(float(diff) / float(max_concurrent_processes))) + 1
    if float(diff) / float(max_concurrent_processes) < 10.0:
        rows_per_request = 10
        processes = int(math.floor(float(diff) / 10.0)) + 1
    else:
        processes = max_concurrent_processes
    start_pkey = min_pkey - 1
    for i in range(0, processes):
        end_pkey = start_pkey + rows_per_request
        where_clause = " WHERE {alias}.{gid} > {start} AND {alias}.{gid} <= {end}"
        ... inject into the_sql (see `inject_where_clause`) ...
        start_pkey = end_pkey

`math.floor` of the float quotient is modelled exactly by `Int.fdiv`
(floor division); a `None` fetched row (empty table) raises inside the
`try`, is caught, logged fatally and turned into a `None` return.
-/

/-- The `(rows_per_request, processes)` pair computed at lines 594-604. -/
def split_params (diff mcp : ℤ) : ℤ × ℤ :=
  let rows_per_request := diff.fdiv mcp + 1
  if (diff : ℚ) / (mcp : ℚ) < 10 then (10, diff.fdiv 10 + 1)
  else (rows_per_request, mcp)

/-- The `for i in range(0, processes)` loop of lines 610-630, keeping only the
`(start_pkey, end_pkey)` pair of each generated range predicate. -/
def range_loop (start_pkey rows_per_request : ℤ) : ℕ → List (ℤ × ℤ)
  | 0 => []
  | n + 1 =>
    (start_pkey, start_pkey + rows_per_request) ::
      range_loop (start_pkey + rows_per_request) rows_per_request n

/-- The list of `(start_pkey, end_pkey)` ranges generated by
`split_sql_into_list` for a non-empty table. -/
def partition_ranges (min_pkey max_pkey mcp : ℤ) : List (ℤ × ℤ) :=
  range_loop (min_pkey - 1) (split_params (max_pkey - min_pkey) mcp).1
    (split_params (max_pkey - min_pkey) mcp).2.toNat

/-- The range predicate text of lines 613-614. -/
def where_clause_str (table_alias table_gid : String) (start_pkey end_pkey : ℤ) : String :=
  " WHERE " ++ table_alias ++ "." ++ table_gid ++ " > " ++ toString start_pkey ++
  " AND " ++ table_alias ++ "." ++ table_gid ++ " <= " ++ toString end_pkey

/-- The clause rewriting of lines 616-627; the boolean records whether the
no-terminator warning was logged. -/
def inject_where_clause (the_sql where_clause : String) : String × Bool :=
  if py_contains the_sql "WHERE " then
    (py_replace the_sql " WHERE " (where_clause ++ " AND "), false)
  else if py_contains the_sql "GROUP BY " then
    (py_replace the_sql "GROUP BY " (where_clause ++ " GROUP BY "), false)
  else if py_contains the_sql "ORDER BY " then
    (py_replace the_sql "ORDER BY " (where_clause ++ " ORDER BY "), false)
  else if py_contains the_sql ";" then
    (py_replace the_sql ";" (where_clause ++ ";"), false)
  else
    (the_sql ++ where_clause, true)

/-- Model of `split_sql_into_list` (lines 580-637): `result` is the fetched
`(MIN, MAX)` row, `none` when the table is empty (in which case `int(None)`
raises, the exception is caught, logged fatally, and `None` is returned). -/
def split_sql_into_list (result : Option (ℤ × ℤ)) (mcp : ℤ)
    (the_sql table_alias table_gid : String) : Option (List String) :=
  match result with
  | none => none
  | some (min_pkey, max_pkey) =>
      some ((partition_ranges min_pkey max_pkey mcp).map
        (fun r => (inject_where_clause the_sql
          (where_clause_str table_alias table_gid r.1 r.2)).1))

theorem range_loop_length (n : ℕ) : ∀ s r : ℤ, (range_loop s r n).length = n := by
  induction n with
  | zero => intro s r; rfl
  | succ k ih => intro s r; simp [range_loop, ih]

theorem range_loop_getD (n : ℕ) :
    ∀ (s r : ℤ) (i : ℕ), i < n →
      (range_loop s r n).getD i (0, 0) = (s + i * r, s + (i + 1) * r) := by
  induction n with
  | zero => intro _ _ i hi; omega
  | succ k ih =>
    intro s r i hi
    match i with
    | 0 => simp [range_loop]
    | j + 1 =>
      have hj : j < k := by omega
      simp only [range_loop, List.getD_cons_succ]
      rw [ih (s + r) r j hj]
      have hc : ((j + 1 : ℕ) : ℤ) = (j : ℤ) + 1 := by push_cast; ring
      rw [hc]
      exact Prod.ext (by ring) (by ring)

theorem range_loop_mem_width (n : ℕ) :
    ∀ (s r : ℤ) (p : ℤ × ℤ), p ∈ range_loop s r n → p.2 - p.1 = r := by
  induction n with
  | zero => intro _ _ p hp; cases hp
  | succ k ih =>
    intro s r p hp
    rcases List.mem_cons.mp hp with h | h
    · subst h; ring
    · exact ih _ _ p h

theorem floor_ratCast_div (a b : ℤ) (hb : 0 < b) : ⌊(a : ℚ) / (b : ℚ)⌋ = a.fdiv b := by
  rw [Int.fdiv_eq_ediv _ hb.le]
  have hb' : ((b.toNat : ℕ) : ℤ) = b := Int.toNat_of_nonneg hb.le
  have hcast : ((b.toNat : ℕ) : ℚ) = (b : ℚ) := by
    exact_mod_cast congrArg (fun z : ℤ => (z : ℚ)) hb'
  rw [← hcast, Rat.floor_intCast_div_natCast, hb']

theorem split_params_spec (diff mcp : ℤ) (hd : 0 ≤ diff) (hm : 1 ≤ mcp) :
    diff < (split_params diff mcp).2 * (split_params diff mcp).1
    ∧ 0 < (split_params diff mcp).1 ∧ 1 ≤ (split_params diff mcp).2 := by
  unfold split_params
  split_ifs with h
  · refine ⟨?_, by norm_num, ?_⟩
    · show diff < (diff.fdiv 10 + 1) * 10
      rw [Int.fdiv_eq_ediv _ (by norm_num)]
      omega
    · show 1 ≤ diff.fdiv 10 + 1
      rw [Int.fdiv_eq_ediv _ (by norm_num)]
      omega
  · refine ⟨?_, ?_, hm⟩
    · show diff < mcp * (diff.fdiv mcp + 1)
      rw [Int.fdiv_eq_ediv _ (by omega)]
      have h1 := Int.ediv_add_emod diff mcp
      have h2 := Int.emod_lt_of_pos diff (show (0 : ℤ) < mcp by omega)
      nlinarith [h1, h2]
    · show 0 < diff.fdiv mcp + 1
      rw [Int.fdiv_eq_ediv _ (by omega)]
      have := Int.ediv_nonneg hd (by omega : (0 : ℤ) ≤ mcp)
      omega

/-- Each value of `(s, s + n*r]` lies in exactly one of the `n` generated
half-open ranges `(s + i*r, s + (i+1)*r]`. -/
theorem cover_unique (s r : ℤ) (n : ℕ) (hr : 0 < r) (k : ℤ)
    (h1 : s < k) (h2 : k ≤ s + n * r) :
    ∃! i : ℕ, i < n ∧ s + i * r < k ∧ k ≤ s + (i + 1) * r := by
  have hd0 : 0 ≤ k - s - 1 := by omega
  have hqr := Int.ediv_add_emod (k - s - 1) r
  have hm0 : 0 ≤ (k - s - 1) % r := Int.emod_nonneg _ (by omega)
  have hmr : (k - s - 1) % r < r := Int.emod_lt_of_pos _ hr
  have hq0 : 0 ≤ (k - s - 1) / r := Int.ediv_nonneg hd0 hr.le
  have hqc : (((k - s - 1) / r).toNat : ℤ) = (k - s - 1) / r := Int.toNat_of_nonneg hq0
  have hqlt : (k - s - 1) / r < (n : ℤ) := by
    by_contra hc
    push_neg at hc
    have : (n : ℤ) * r ≤ ((k - s - 1) / r) * r :=
      mul_le_mul_of_nonneg_right hc hr.le
    nlinarith [hqr, hm0]
  refine ⟨((k - s - 1) / r).toNat, ⟨by omega, ?_, ?_⟩, ?_⟩
  · rw [hqc]; nlinarith [hqr, hm0]
  · rw [hqc]; nlinarith [hqr, hmr]
  · rintro j ⟨hjn, hj1, hj2⟩
    have hjd : (j : ℤ) * r ≤ k - s - 1 := by omega
    have hjd2 : k - s - 1 < ((j : ℤ) + 1) * r := by nlinarith [hj2]
    rcases lt_trichotomy ((j : ℤ)) ((k - s - 1) / r) with hlt | heq | hgt
    · exfalso
      have hj1q : (j : ℤ) + 1 ≤ (k - s - 1) / r := by omega
      have := mul_le_mul_of_nonneg_right hj1q hr.le
      nlinarith [hqr, hm0]
    · omega
    · exfalso
      have hq1j : (k - s - 1) / r + 1 ≤ (j : ℤ) := by omega
      have := mul_le_mul_of_nonneg_right hq1j hr.le
      nlinarith [hqr, hmr]

/-- Claim C8: For a non-empty table (`min_pkey ≤ max_pkey`) and a positive
process target, the ranges of `split_sql_into_list` obey the claimed policy:
outside the clamp case every range spans `⌊(max-min)/mcp⌋ + 1` rows over
`mcp` partitions; when `(max-min)/mcp < 10` every range spans 10 rows over
`⌊(max-min)/10⌋ + 1` partitions; the ranges start at `min_pkey - 1`, are
contiguous, and tile `[min_pkey, max_pkey]` — every key in that interval
falls in exactly one half-open range `(start, end]`; finally
`min=1, max=100, target=3` yields 3 ranges and `min=1, max=5, target=10`
fewer than 10. -/
theorem c8_range_partitioner (minp maxp mcp : ℤ) (h1 : minp ≤ maxp) (h2 : 1 ≤ mcp) :
    (¬ (((maxp - minp : ℤ) : ℚ) / (mcp : ℚ) < 10) →
      (∀ p ∈ partition_ranges minp maxp mcp,
        p.2 - p.1 = ⌊((maxp - minp : ℤ) : ℚ) / (mcp : ℚ)⌋ + 1)
      ∧ (partition_ranges minp maxp mcp).length = mcp.toNat)
    ∧ (((maxp - minp : ℤ) : ℚ) / (mcp : ℚ) < 10 →
      (∀ p ∈ partition_ranges minp maxp mcp, p.2 - p.1 = 10)
      ∧ ((partition_ranges minp maxp mcp).length : ℤ)
          = ⌊((maxp - minp : ℤ) : ℚ) / 10⌋ + 1)
    ∧ ((partition_ranges minp maxp mcp).getD 0 (0, 0)).1 = minp - 1
    ∧ (∀ i : ℕ, i + 1 < (partition_ranges minp maxp mcp).length →
        ((partition_ranges minp maxp mcp).getD (i + 1) (0, 0)).1
          = ((partition_ranges minp maxp mcp).getD i (0, 0)).2)
    ∧ (∀ k : ℤ, minp ≤ k → k ≤ maxp →
        ∃! i : ℕ, i < (partition_ranges minp maxp mcp).length
          ∧ ((partition_ranges minp maxp mcp).getD i (0, 0)).1 < k
          ∧ k ≤ ((partition_ranges minp maxp mcp).getD i (0, 0)).2)
    ∧ (partition_ranges 1 100 3).length = 3
    ∧ (partition_ranges 1 5 10).length < 10 := by
  have hd : (0 : ℤ) ≤ maxp - minp := by omega
  obtain ⟨hkey, hrpos, hppos⟩ := split_params_spec (maxp - minp) mcp hd h2
  have hplen : (partition_ranges minp maxp mcp).length
      = (split_params (maxp - minp) mcp).2.toNat := by
    unfold partition_ranges
    rw [range_loop_length]
  have hpc : (((split_params (maxp - minp) mcp).2.toNat : ℕ) : ℤ)
      = (split_params (maxp - minp) mcp).2 := Int.toNat_of_nonneg (by omega)
  have hsp_clamp : ((maxp - minp : ℤ) : ℚ) / (mcp : ℚ) < 10 →
      split_params (maxp - minp) mcp = (10, (maxp - minp).fdiv 10 + 1) := by
    intro h
    simp only [split_params]
    rw [if_pos h]
  have hsp_else : ¬ (((maxp - minp : ℤ) : ℚ) / (mcp : ℚ) < 10) →
      split_params (maxp - minp) mcp = ((maxp - minp).fdiv mcp + 1, mcp) := by
    intro h
    simp only [split_params]
    rw [if_neg h]
  refine ⟨?_, ?_, ?_, ?_, ?_, ?_, ?_⟩
  · intro h
    constructor
    · intro p hp
      have hw := range_loop_mem_width _ _ _ p hp
      rw [hw, hsp_else h, floor_ratCast_div _ _ (by omega : (0 : ℤ) < mcp)]
    · rw [hplen, hsp_else h]
  · intro h
    constructor
    · intro p hp
      have hw := range_loop_mem_width _ _ _ p hp
      rw [hw, hsp_clamp h]
    · have hf : (0 : ℤ) ≤ (maxp - minp).fdiv 10 := by
        rw [Int.fdiv_eq_ediv _ (by norm_num)]
        exact Int.ediv_nonneg hd (by norm_num)
      rw [hplen, hsp_clamp h,
        show ((10 : ℚ)) = (((10 : ℤ) : ℚ)) by norm_num,
        floor_ratCast_div _ _ (by norm_num : (0 : ℤ) < 10)]
      show (((maxp - minp).fdiv 10 + 1).toNat : ℤ) = (maxp - minp).fdiv 10 + 1
      omega
  · have h0 : 0 < (split_params (maxp - minp) mcp).2.toNat := by omega
    show ((range_loop (minp - 1) (split_params (maxp - minp) mcp).1
        (split_params (maxp - minp) mcp).2.toNat).getD 0 (0, 0)).1 = minp - 1
    rw [range_loop_getD _ _ _ 0 h0]
    simp
  · intro i hi
    rw [hplen] at hi
    show ((range_loop (minp - 1) (split_params (maxp - minp) mcp).1
        (split_params (maxp - minp) mcp).2.toNat).getD (i + 1) (0, 0)).1
      = ((range_loop (minp - 1) (split_params (maxp - minp) mcp).1
        (split_params (maxp - minp) mcp).2.toNat).getD i (0, 0)).2
    rw [range_loop_getD _ _ _ (i + 1) hi, range_loop_getD _ _ _ i (by omega)]
    show minp - 1 + ((i + 1 : ℕ) : ℤ) * _ = minp - 1 + ((i : ℤ) + 1) * _
    push_cast
    ring
  · intro k hk1 hk2
    have hs : minp - 1 < k := by omega
    have hke : k ≤ minp - 1 + ((split_params (maxp - minp) mcp).2.toNat : ℤ)
        * (split_params (maxp - minp) mcp).1 := by
      rw [hpc]
      linarith [hkey]
    have hcu := cover_unique (minp - 1) (split_params (maxp - minp) mcp).1
      ((split_params (maxp - minp) mcp).2.toNat) hrpos k hs hke
    have hiff : ∀ i : ℕ,
        (i < (partition_ranges minp maxp mcp).length
          ∧ ((partition_ranges minp maxp mcp).getD i (0, 0)).1 < k
          ∧ k ≤ ((partition_ranges minp maxp mcp).getD i (0, 0)).2)
        ↔ (i < (split_params (maxp - minp) mcp).2.toNat
          ∧ minp - 1 + (i : ℤ) * (split_params (maxp - minp) mcp).1 < k
          ∧ k ≤ minp - 1 + ((i : ℤ) + 1) * (split_params (maxp - minp) mcp).1) := by
      intro i
      rw [hplen]
      constructor
      · rintro ⟨hin, ha, hb⟩
        refine ⟨hin, ?_, ?_⟩
        · have := range_loop_getD _ (minp - 1) (split_params (maxp - minp) mcp).1 i hin
          rw [show partition_ranges minp maxp mcp = range_loop (minp - 1)
              (split_params (maxp - minp) mcp).1
              (split_params (maxp - minp) mcp).2.toNat from rfl, this] at ha
          exact ha
        · have := range_loop_getD _ (minp - 1) (split_params (maxp - minp) mcp).1 i hin
          rw [show partition_ranges minp maxp mcp = range_loop (minp - 1)
              (split_params (maxp - minp) mcp).1
              (split_params (maxp - minp) mcp).2.toNat from rfl, this] at hb
          exact hb
      · rintro ⟨hin, ha, hb⟩
        refine ⟨hin, ?_, ?_⟩ <;>
          rw [show partition_ranges minp maxp mcp = range_loop (minp - 1)
              (split_params (maxp - minp) mcp).1
              (split_params (maxp - minp) mcp).2.toNat from rfl,
            range_loop_getD _ _ _ i hin]
        · exact ha
        · exact hb
    exact (existsUnique_congr hiff).mpr hcu
  · show (range_loop (1 - 1) (split_params (100 - 1) 3).1
        (split_params (100 - 1) 3).2.toNat).length = 3
    rw [range_loop_length]
    have hs3 : split_params (100 - 1 : ℤ) 3 = ((100 - 1 : ℤ).fdiv 3 + 1, 3) := by
      simp only [split_params]
      rw [if_neg (by norm_num)]
    rw [hs3]
    rfl
  · show (range_loop (1 - 1) (split_params (5 - 1) 10).1
        (split_params (5 - 1) 10).2.toNat).length < 10
    rw [range_loop_length]
    have hs10 : split_params (5 - 1 : ℤ) 10 = (10, (5 - 1 : ℤ).fdiv 10 + 1) := by
      simp only [split_params]
      rw [if_pos (by norm_num)]
    rw [hs10]
    decide

/-- Witness for C8: the `min=1, max=100, target=3` instance. -/
theorem c8_range_partitioner_witness :
    ((partition_ranges 1 100 3).getD 0 (0, 0)).1 = 1 - 1
    ∧ (partition_ranges 1 100 3).length = 3
    ∧ (∃! i : ℕ, i < (partition_ranges 1 100 3).length
        ∧ ((partition_ranges 1 100 3).getD i (0, 0)).1 < 50
        ∧ 50 ≤ ((partition_ranges 1 100 3).getD i (0, 0)).2) :=
  have h := c8_range_partitioner 1 100 3 (by norm_num) (by norm_num)
  ⟨h.2.2.1, h.2.2.2.2.2.1, h.2.2.2.2.1 50 (by norm_num) (by norm_num)⟩

theorem isPrefixOf_charsContain (p l : List Char) (h : p.isPrefixOf l = true) :
    charsContain p l = true := by
  cases l with
  | nil =>
    cases p with
    | nil => rfl
    | cons a as => simp [List.isPrefixOf] at h
  | cons c cs => simp [charsContain, h]

theorem charsContain_cons_of (c : Char) (p l : List Char)
    (h : charsContain (c :: p) l = true) : charsContain p l = true := by
  induction l with
  | nil => simp [charsContain] at h
  | cons a as ih =>
    rw [charsContain, Bool.or_eq_true] at h
    rcases h with hpre | hrec
    · have hp : p.isPrefixOf as = true := by
        simp only [List.isPrefixOf, Bool.and_eq_true] at hpre
        exact hpre.2
      rw [charsContain, Bool.or_eq_true]
      exact Or.inr (isPrefixOf_charsContain p as hp)
    · rw [charsContain, Bool.or_eq_true]
      exact Or.inr (ih hrec)

theorem py_contains_of_space_where (sql : String)
    (h : py_contains sql " WHERE " = true) : py_contains sql "WHERE " = true := by
  unfold py_contains at h ⊢
  have hdata : (" WHERE " : String).data = ' ' :: ("WHERE " : String).data := rfl
  rw [hdata] at h
  exact charsContain_cons_of _ _ _ h

/-- Claim C9: the clause injection of `split_sql_into_list` rewrites the first
applicable clause in the priority order WHERE, GROUP BY, ORDER BY: a
template containing `" WHERE "` gets the range predicate joined to the
existing conditions with `AND` (the conditions are preserved, as the
concrete instance shows); when none of the three clauses occurs the
predicate is inserted before the `";"` terminator, or appended with a
logged warning when no terminator exists. -/
theorem c9_inject_where_clause (the_sql wc : String) :
    (py_contains the_sql "WHERE " = true →
      inject_where_clause the_sql wc
        = (py_replace the_sql " WHERE " (wc ++ " AND "), false))
    ∧ (py_contains the_sql " WHERE " = true →
      inject_where_clause the_sql wc
        = (py_replace the_sql " WHERE " (wc ++ " AND "), false))
    ∧ (py_contains the_sql "WHERE " = false → py_contains the_sql "GROUP BY " = true →
      inject_where_clause the_sql wc
        = (py_replace the_sql "GROUP BY " (wc ++ " GROUP BY "), false))
    ∧ (py_contains the_sql "WHERE " = false → py_contains the_sql "GROUP BY " = false →
      py_contains the_sql "ORDER BY " = true →
      inject_where_clause the_sql wc
        = (py_replace the_sql "ORDER BY " (wc ++ " ORDER BY "), false))
    ∧ (py_contains the_sql "WHERE " = false → py_contains the_sql "GROUP BY " = false →
      py_contains the_sql "ORDER BY " = false → py_contains the_sql ";" = true →
      inject_where_clause the_sql wc = (py_replace the_sql ";" (wc ++ ";"), false))
    ∧ (py_contains the_sql "WHERE " = false → py_contains the_sql "GROUP BY " = false →
      py_contains the_sql "ORDER BY " = false → py_contains the_sql ";" = false →
      inject_where_clause the_sql wc = (the_sql ++ wc, true))
    ∧ inject_where_clause "SELECT * FROM tbl WHERE x > 0;"
        (where_clause_str "tab" "gid" 0 30)
      = ("SELECT * FROM tbl WHERE tab.gid > 0 AND tab.gid <= 30 AND x > 0;", false) := by
  refine ⟨fun h1 => ?_, fun h1 => ?_, fun h1 h2 => ?_, fun h1 h2 h3 => ?_,
    fun h1 h2 h3 h4 => ?_, fun h1 h2 h3 h4 => ?_, by decide⟩
  · simp [inject_where_clause, h1]
  · simp [inject_where_clause, py_contains_of_space_where the_sql h1]
  · simp [inject_where_clause, h1, h2]
  · simp [inject_where_clause, h1, h2, h3]
  · simp [inject_where_clause, h1, h2, h3, h4]
  · simp [inject_where_clause, h1, h2, h3, h4]

/-- Witness for C9: the WHERE and GROUP BY branches at concrete templates. -/
theorem c9_inject_where_clause_witness :
    inject_where_clause "SELECT a FROM t WHERE a > 1;" "W"
      = (py_replace "SELECT a FROM t WHERE a > 1;" " WHERE " ("W" ++ " AND "), false)
    ∧ inject_where_clause "SELECT a FROM t GROUP BY a;" "W"
      = (py_replace "SELECT a FROM t GROUP BY a;" "GROUP BY " ("W" ++ " GROUP BY "), false) :=
  ⟨(c9_inject_where_clause "SELECT a FROM t WHERE a > 1;" "W").1 (by decide),
   (c9_inject_where_clause "SELECT a FROM t GROUP BY a;" "W").2.2.1 (by decide) (by decide)⟩

end CensusLoader
